import Mathlib

/-!
# Verification of the dice-game backend (session-locked ledger transaction protocol)

Shallow embedding of the Go backend:
* `internal/constants/constants.go` — protocol constants;
* `internal/wallet/service.go` — the ledger store (`EnsureWalletExists`,
  `GetBalance`, `UpdateBalance`);
* `internal/game` — the round resolver (`PlayRound`);
* `internal/handler/handler.go` — the session protocol engine
  (`handlePlay`, `handleGetBalance`, `handleEndPlay`, `HandleClient`).

External effects (Postgres, Redis, the RNG, message sends) are made explicit:
the stores are state that is threaded through, infrastructure failures are
injected through an `Oracle` of fault flags, the two die values are oracle
inputs, and every observable action (lock operation, wallet operation, message
send) is recorded in an event trace in program order.
-/

namespace DiceGame

/-! ## Constants (internal/constants/constants.go) -/

def MsgTypePlay : String := "play"
def MsgTypeEndPlay : String := "end_play"
def MsgTypeGetBalance : String := "get_balance"
def MsgTypePlayResult : String := "play_result"
def MsgTypeBalanceUpdate : String := "balance_update"
def MsgTypePlayEnded : String := "play_ended"
def MsgTypeError : String := "error"

def ErrCodeBadRequest : String := "BAD_REQUEST"
def ErrCodeInternalError : String := "INTERNAL_ERROR"
def ErrCodeActivePlayExists : String := "ACTIVE_PLAY_EXISTS"
def ErrCodeInvalidBet : String := "INVALID_BET"
def ErrCodeBetTooHigh : String := "BET_TOO_HIGH"
def ErrCodeInvalidBetType : String := "INVALID_BET_TYPE"
def ErrCodeInsufficientFunds : String := "INSUFFICIENT_FUNDS"
def ErrCodeWalletNotFound : String := "WALLET_NOT_FOUND"
def ErrCodeUnknownType : String := "UNKNOWN_TYPE"
def ErrCodeFailedLockRelease : String := "FAILED_LOCK_RELEASE"

def BetTypeLt7 : String := "lt7"
def BetTypeGt7 : String := "gt7"
def OutcomeWin : String := "win"
def OutcomeLose : String := "lose"

def RedisKeyPrefixActivePlay : String := "active_play:"

def DefaultInitialBalance : Int := 500

/-! ## Ledger store (internal/wallet) -/

/-- Errors of the wallet service (`internal/wallet/errors.go`); `dbError`
stands for any wrapped driver/transaction error (begin, select, update,
commit, or `EnsureWalletExists` exec failures). -/
inductive WalletError
  | walletNotFound
  | insufficientFunds
  | updateFailed
  | dbError
deriving DecidableEq, Repr

/-- Fault-injection points of the `UpdateBalance` transaction, one per
fallible database call in the Go code, in program order. -/
inductive DbFault
  | atBegin
  | atSelect
  | atUpdate
  | atRows
  | atCommit
deriving DecidableEq, Repr

/-- The committed state of the `wallets` table: `user_id -> balance`
(`none` when no row exists for that user). -/
structure WalletStore where
  wallets : String → Option Int

/-- One committed row write (the `UPDATE`/`INSERT` of a transaction). -/
def WalletStore.set (st : WalletStore) (userID : String) (b : Int) : WalletStore :=
  ⟨fun u => if u = userID then some b else st.wallets u⟩

/-- `EnsureWalletExists` (service.go): `INSERT ... ON CONFLICT DO NOTHING`
with the default starting balance; `fault` injects an exec error, which
leaves the table unchanged. -/
def EnsureWalletExists (st : WalletStore) (userID : String) (fault : Bool) :
    WalletStore × Except WalletError Unit :=
  if fault then (st, .error .dbError)
  else
    match st.wallets userID with
    | some _ => (st, .ok ())
    | none => (st.set userID DefaultInitialBalance, .ok ())

/-- `GetBalance` (service.go): `SELECT balance`; `pgx.ErrNoRows` maps to
`ErrWalletNotFound`; `fault` injects a driver error. Read-only. -/
def GetBalance (st : WalletStore) (userID : String) (fault : Bool) :
    Except WalletError Int :=
  if fault then .error .dbError
  else
    match st.wallets userID with
    | none => .error .walletNotFound
    | some balance => .ok balance

/-- `UpdateBalance` (service.go, lines 66-119): row-locking transaction.
Every error path rolls back (`defer tx.Rollback`), so the store is returned
unchanged on every outcome except the committed update. The insufficient-funds
check happens after the `SELECT ... FOR UPDATE` and before the `UPDATE`. -/
def UpdateBalance (st : WalletStore) (userID : String) (amountChange : Int)
    (fault : Option DbFault) : WalletStore × Except WalletError Int :=
  if fault = some .atBegin ∨ fault = some .atSelect then (st, .error .dbError)
  else
    match st.wallets userID with
    | none => (st, .error .walletNotFound)
    | some currentBalance =>
      let potentialNewBalance := currentBalance + amountChange
      if potentialNewBalance < 0 then (st, .error .insufficientFunds)
      else if fault = some .atUpdate then (st, .error .dbError)
      else if fault = some .atRows then (st, .error .updateFailed)
      else if fault = some .atCommit then (st, .error .dbError)
      else (st.set userID potentialNewBalance, .ok potentialNewBalance)

/-- Go multiple-return convention `(int64, error)`: the value half is the
zero value `0` whenever the error half is set. Used where the handler ignores
the error (`currentBalance, _ := h.walletSvc.GetBalance(...)`). -/
def goInt : Except WalletError Int → Int
  | .ok v => v
  | .error _ => 0

/-- Every balance recorded in the store is non-negative. -/
def WalletNonNeg (st : WalletStore) : Prop :=
  ∀ u b, st.wallets u = some b → 0 ≤ b

/-- The committed state after a sequence of `UpdateBalance` calls
(user, delta, injected fault), applied left to right. -/
def applyAdjusts (st : WalletStore) : List (String × Int × Option DbFault) → WalletStore
  | [] => st
  | (u, d, f) :: rest => applyAdjusts (UpdateBalance st u d f).1 rest

/-! ## Round resolver (internal/game) -/

/-- `GameResult` (game/types.go). -/
structure GameResult where
  die1 : Nat
  die2 : Nat
  sum : Nat
  outcome : String
  winnings : Int
deriving DecidableEq, Repr

/-- `ErrInvalidBetType` plus `svcFailure`, which models an arbitrary failure
of the `GameService` interface call as seen by the handler (the spec: should
not occur given valid input, but must be handled). -/
inductive GameError
  | invalidBetType
  | svcFailure
deriving DecidableEq, Repr

/-- `PlayRound` (game/service.go, lines 19-62). The two die values, produced
by `rand.Intn(6) + 1` in Go, are explicit arguments; everything else is a
pure function of them. -/
def PlayRound (betType : String) (betAmount : Int) (die1 die2 : Nat) :
    Except GameError GameResult :=
  if betType ≠ BetTypeLt7 ∧ betType ≠ BetTypeGt7 then .error .invalidBetType
  else
    let sumResult := die1 + die2
    let outcomeWinnings : String × Int :=
      if sumResult = 7 then (OutcomeLose, 0)
      else if sumResult < 7 then
        (if betType = BetTypeLt7 then (OutcomeWin, betAmount) else (OutcomeLose, 0))
      else
        (if betType = BetTypeGt7 then (OutcomeWin, betAmount) else (OutcomeLose, 0))
    .ok ⟨die1, die2, sumResult, outcomeWinnings.1, outcomeWinnings.2⟩

/-! ## Session protocol engine (internal/handler/handler.go) -/

/-- The parsed fields of a client payload. Go uses three structs
(`PlayPayload`, `GetBalancePayload`, `EndPlayPayload`) unmarshalled from the
same raw JSON; they share `clientId`, and only `play` reads `betAmount` and
`betType`, so one record carrying the union of the fields is equivalent. -/
structure PlayPayload where
  clientID : String
  betAmount : Int
  betType : String
deriving DecidableEq, Repr

/-- A parsed inbound envelope. `payload = none` models a payload that fails
to unmarshal into the payload struct of the message's type. -/
structure WsMessage where
  type : String
  payload : Option PlayPayload
deriving DecidableEq, Repr

/-- Server-to-client messages. The human-readable `message` string of error
payloads is omitted; errors are identified by their `code`. -/
inductive SMsg
  | errMsg (code : String)
  | playResult (clientID : String) (die1 die2 : Nat) (outcome : String)
      (betAmount winnings : Int)
  | balanceUpdate (clientID : String) (balance : Int)
  | playEnded (clientID : String) (finalBalance : Int)
deriving DecidableEq, Repr

/-- Observable actions of one handler run, recorded in program order:
Redis lock operations, wallet-service calls, the round-resolver call, and
message sends. For `acquireLock`, `none` is a Redis error and `some b` the
`SetNX` result. -/
inductive Ev
  | acquireLock (key : String) (result : Option Bool)
  | releaseLock (key : String) (released : Bool)
  | ensureWallet (user : String)
  | adjust (user : String) (delta : Int)
  | readBalance (user : String)
  | resolveRound
  | send (m : SMsg)
deriving DecidableEq, Repr

/-- The Redis lock store: which keys currently exist. -/
structure LockStore where
  held : String → Bool

def LockStore.add (ls : LockStore) (key : String) : LockStore :=
  ⟨fun k => if k = key then true else ls.held k⟩

def LockStore.del (ls : LockStore) (key : String) : LockStore :=
  ⟨fun k => if k = key then false else ls.held k⟩

/-- `acquireRedisLock` (handler.go, lines 364-376): `SetNX` with a TTL.
`fault` injects a Redis error (result `none`, no key created); otherwise the
key is created iff it was absent, and the success flag is returned. -/
def acquireRedisLock (ls : LockStore) (key : String) (fault : Bool) :
    LockStore × Option Bool :=
  if fault then (ls, none)
  else if ls.held key then (ls, some false)
  else (ls.add key, some true)

/-- `releaseRedisLock` (handler.go, lines 380-400): `DEL` on the key.
Returns `true` on success or when the key was already gone, `false` on a
Redis error (`fault`), in which case the key state is unchanged. -/
def releaseRedisLock (ls : LockStore) (key : String) (fault : Bool) :
    LockStore × Bool :=
  if fault then (ls, false) else (ls.del key, true)

/-- The external state a handler run reads and writes. -/
structure SysState where
  wallets : WalletStore
  locks : LockStore

/-- The specific validation errors of handler.go. -/
inductive ValidationError
  | validationBetAmount
  | validationBetTooHigh
  | validationBetType
deriving DecidableEq, Repr

/-- `validatePlayPayload` (handler.go, lines 437-448). -/
def validatePlayPayload (maxBetAmount : Int) (payload : PlayPayload) :
    Option ValidationError :=
  if payload.betAmount ≤ 0 then some .validationBetAmount
  else if payload.betAmount > maxBetAmount then some .validationBetTooHigh
  else if payload.betType ≠ BetTypeLt7 ∧ payload.betType ≠ BetTypeGt7 then
    some .validationBetType
  else none

/-- `validationErrorToCode` (handler.go, lines 458-469). -/
def validationErrorToCode : ValidationError → String
  | .validationBetAmount => ErrCodeInvalidBet
  | .validationBetTooHigh => ErrCodeBetTooHigh
  | .validationBetType => ErrCodeInvalidBetType

/-- Fault-injection oracle for one handler run: one flag per fallible
external call, plus the two die values the RNG produces. -/
structure Oracle where
  lockErr : Bool
  ensureFault : Bool
  debitFault : Option DbFault
  gameFault : Bool
  die1 : Nat
  die2 : Nat
  refundFault : Option DbFault
  creditFault : Option DbFault
  readFault : Bool
  releaseFault : Bool
deriving DecidableEq, Repr

/-- The all-succeed oracle with the given die values. -/
def noFaultOracle (d1 d2 : Nat) : Oracle :=
  ⟨false, false, none, false, d1, d2, none, none, false, false⟩

/-- The body of `handlePlay` that runs with the lock held (handler.go,
lines 199-285): ensure wallet, debit, resolve the round, then credit or read
back the balance, emit `play_result` and, when the computed final balance is
non-negative, `balance_update`. The deferred lock release is applied by
`handlePlay` around this body. -/
def playLocked (st : SysState) (clientID : String) (payload : PlayPayload)
    (o : Oracle) : SysState × List Ev :=
  let ens := EnsureWalletExists st.wallets clientID o.ensureFault
  let st1 : SysState := ⟨ens.1, st.locks⟩
  match ens.2 with
  | .error _ => (st1, [.ensureWallet clientID, .send (.errMsg ErrCodeInternalError)])
  | .ok _ =>
    let deb := UpdateBalance st1.wallets clientID (-payload.betAmount) o.debitFault
    let st2 : SysState := ⟨deb.1, st1.locks⟩
    let evs0 : List Ev := [.ensureWallet clientID, .adjust clientID (-payload.betAmount)]
    match deb.2 with
    | .error e =>
      if e = .insufficientFunds then
        (st2, evs0 ++ [.send (.errMsg ErrCodeInsufficientFunds)])
      else
        (st2, evs0 ++ [.send (.errMsg ErrCodeInternalError)])
    | .ok _ =>
      let gameRes : Except GameError GameResult :=
        if o.gameFault then .error .svcFailure
        else PlayRound payload.betType payload.betAmount o.die1 o.die2
      match gameRes with
      | .error _ =>
        -- the error is reported first, then the debit is refunded
        let refund := UpdateBalance st2.wallets clientID payload.betAmount o.refundFault
        (⟨refund.1, st2.locks⟩,
          evs0 ++ [.resolveRound, .send (.errMsg ErrCodeInternalError),
                   .adjust clientID payload.betAmount])
      | .ok gameResult =>
        let resultSend : Ev :=
          .send (.playResult clientID gameResult.die1 gameResult.die2
                   gameResult.outcome payload.betAmount gameResult.winnings)
        if gameResult.winnings > 0 then
          let amountToCredit := payload.betAmount + gameResult.winnings
          let cred := UpdateBalance st2.wallets clientID amountToCredit o.creditFault
          let st3 : SysState := ⟨cred.1, st2.locks⟩
          match cred.2 with
          | .error _ =>
            -- credit failed: error, then a best-effort re-read whose error is
            -- ignored (Go zero value 0 on failure)
            let finalBalance := goInt (GetBalance st3.wallets clientID o.readFault)
            let evs1 := evs0 ++ [.resolveRound, .adjust clientID amountToCredit,
                                 .send (.errMsg ErrCodeInternalError),
                                 .readBalance clientID, resultSend]
            if finalBalance ≥ 0 then
              (st3, evs1 ++ [.send (.balanceUpdate clientID finalBalance)])
            else (st3, evs1)
          | .ok newBalance =>
            let evs1 := evs0 ++ [.resolveRound, .adjust clientID amountToCredit, resultSend]
            if newBalance ≥ 0 then
              (st3, evs1 ++ [.send (.balanceUpdate clientID newBalance)])
            else (st3, evs1)
        else
          match GetBalance st2.wallets clientID o.readFault with
          | .error _ =>
            (st2, evs0 ++ [.resolveRound, .readBalance clientID,
                           .send (.errMsg ErrCodeInternalError), resultSend])
          | .ok currentBalance =>
            let evs1 := evs0 ++ [.resolveRound, .readBalance clientID, resultSend]
            if currentBalance ≥ 0 then
              (st2, evs1 ++ [.send (.balanceUpdate clientID currentBalance)])
            else (st2, evs1)

/-- `handlePlay` (handler.go, lines 148-286): payload parse and client-id
check, validation, lock acquisition, then `playLocked` wrapped by the
deferred unconditional lock release (which reports
`FAILED_LOCK_RELEASE` when the `DEL` fails). -/
def handlePlay (maxBetAmount : Int) (st : SysState) (payloadJSON : Option PlayPayload)
    (clientID : String) (o : Oracle) : SysState × List Ev :=
  match payloadJSON with
  | none => (st, [.send (.errMsg ErrCodeBadRequest)])
  | some payload =>
    if clientID = "" ∨ payload.clientID ≠ clientID then
      (st, [.send (.errMsg ErrCodeBadRequest)])
    else
      match validatePlayPayload maxBetAmount payload with
      | some e => (st, [.send (.errMsg (validationErrorToCode e))])
      | none =>
        let activePlayKey := RedisKeyPrefixActivePlay ++ clientID
        let acq := acquireRedisLock st.locks activePlayKey o.lockErr
        let st1 : SysState := ⟨st.wallets, acq.1⟩
        match acq.2 with
        | none =>
          (st1, [.acquireLock activePlayKey none, .send (.errMsg ErrCodeInternalError)])
        | some false =>
          (st1, [.acquireLock activePlayKey (some false),
                 .send (.errMsg ErrCodeActivePlayExists)])
        | some true =>
          let body := playLocked st1 clientID payload o
          let rel := releaseRedisLock body.1.locks activePlayKey o.releaseFault
          let relEvs : List Ev :=
            if rel.2 then [.releaseLock activePlayKey true]
            else [.releaseLock activePlayKey false, .send (.errMsg ErrCodeFailedLockRelease)]
          (⟨body.1.wallets, rel.1⟩,
            .acquireLock activePlayKey (some true) :: body.2 ++ relEvs)

/-- `handleGetBalance` (handler.go, lines 288-323). -/
def handleGetBalance (st : SysState) (payloadJSON : Option PlayPayload)
    (clientID : String) (o : Oracle) : SysState × List Ev :=
  match payloadJSON with
  | none => (st, [.send (.errMsg ErrCodeBadRequest)])
  | some payload =>
    if clientID = "" ∨ payload.clientID ≠ clientID then
      (st, [.send (.errMsg ErrCodeBadRequest)])
    else
      let ens := EnsureWalletExists st.wallets clientID o.ensureFault
      let st1 : SysState := ⟨ens.1, st.locks⟩
      match ens.2 with
      | .error _ => (st1, [.ensureWallet clientID, .send (.errMsg ErrCodeInternalError)])
      | .ok _ =>
        match GetBalance st1.wallets clientID o.readFault with
        | .error _ =>
          (st1, [.ensureWallet clientID, .readBalance clientID,
                 .send (.errMsg ErrCodeInternalError)])
        | .ok balance =>
          (st1, [.ensureWallet clientID, .readBalance clientID,
                 .send (.balanceUpdate clientID balance)])

/-- `handleEndPlay` (handler.go, lines 325-359). A parse failure or client-id
mismatch sends `BAD_REQUEST` but does NOT return: the function proceeds to
read the balance (sentinel `-1` when the read fails) and always emits
`play_ended`. -/
def handleEndPlay (st : SysState) (payloadJSON : Option PlayPayload)
    (clientID : String) (o : Oracle) : SysState × List Ev :=
  let preEvs : List Ev :=
    match payloadJSON with
    | none => [.send (.errMsg ErrCodeBadRequest)]
    | some payload =>
      if clientID = "" ∨ payload.clientID ≠ clientID then
        [.send (.errMsg ErrCodeBadRequest)]
      else []
  match GetBalance st.wallets clientID o.readFault with
  | .error _ =>
    (st, preEvs ++ [.readBalance clientID, .send (.errMsg ErrCodeInternalError),
                    .send (.playEnded clientID (-1))])
  | .ok finalBalance =>
    (st, preEvs ++ [.readBalance clientID, .send (.playEnded clientID finalBalance)])

/-- The per-connection mutable state: the last-observed client identity. -/
structure ClientState where
  sys : SysState
  currentClientID : String

/-- `extractClientID` (handler.go, lines 472-491): reads the `clientId`
field for the three known message types; unknown types and unparseable
payloads yield an error (`none` here). -/
def extractClientID (msg : WsMessage) : Option String :=
  if msg.type = MsgTypePlay ∨ msg.type = MsgTypeGetBalance ∨ msg.type = MsgTypeEndPlay then
    msg.payload.map PlayPayload.clientID
  else none

/-- The identity bound to the connection after the `HandleClient` loop sees
`msg`: the extracted id when extraction succeeded and was non-empty,
otherwise the previous one (handler.go, lines 122-125). -/
def nextClientID (currentClientID : String) (msg : WsMessage) : String :=
  match extractClientID msg with
  | some c => if c ≠ "" then c else currentClientID
  | none => currentClientID

/-- One iteration of the `HandleClient` read loop (handler.go, lines
103-142) on an already-parsed envelope: update the bound identity, dispatch
on the message type. The `Bool` is true when the loop returns (the
connection is closed), which happens exactly after `end_play`. -/
def handleMessage (maxBetAmount : Int) (cs : ClientState) (msg : WsMessage)
    (o : Oracle) : ClientState × List Ev × Bool :=
  let cid := nextClientID cs.currentClientID msg
  if msg.type = MsgTypePlay then
    let r := handlePlay maxBetAmount cs.sys msg.payload cid o
    (⟨r.1, cid⟩, r.2, false)
  else if msg.type = MsgTypeGetBalance then
    let r := handleGetBalance cs.sys msg.payload cid o
    (⟨r.1, cid⟩, r.2, false)
  else if msg.type = MsgTypeEndPlay then
    let r := handleEndPlay cs.sys msg.payload cid o
    (⟨r.1, cid⟩, r.2, true)
  else
    (⟨cs.sys, cid⟩, [.send (.errMsg ErrCodeUnknownType)], false)

/-- The `HandleClient` loop over a finite inbound message sequence: processes
messages in order and stops (closing the connection) as soon as an iteration
reports closure. -/
def runClient (maxBetAmount : Int) (cs : ClientState) :
    List (WsMessage × Oracle) → ClientState × List Ev
  | [] => (cs, [])
  | (msg, o) :: rest =>
    let r := handleMessage maxBetAmount cs msg o
    if r.2.2 then (r.1, r.2.1)
    else
      let rr := runClient maxBetAmount r.1 rest
      (rr.1, r.2.1 ++ rr.2)

/-! ## Basic lemmas about the ledger store -/

theorem WalletStore.set_same (st : WalletStore) (u : String) (b : Int) :
    (st.set u b).wallets u = some b := by
  simp [WalletStore.set]

theorem WalletStore.set_other (st : WalletStore) (u v : String) (b : Int)
    (h : v ≠ u) : (st.set u b).wallets v = st.wallets v := by
  simp [WalletStore.set, h]

theorem set_preserves_nonneg (st : WalletStore) (u : String) (b : Int)
    (h : WalletNonNeg st) (hb : 0 ≤ b) : WalletNonNeg (st.set u b) := by
  intro v bv hv
  unfold WalletStore.set at hv
  simp only at hv
  split at hv
  · simp only [Option.some.injEq] at hv
    exact hv ▸ hb
  · exact h v bv hv

/-- A successful `UpdateBalance` with no injected fault commits exactly
`b + d`. -/
theorem updateBalance_ok (st : WalletStore) (u : String) (b d : Int)
    (h : st.wallets u = some b) (h2 : 0 ≤ b + d) :
    UpdateBalance st u d none = (st.set u (b + d), .ok (b + d)) := by
  simp [UpdateBalance, h, not_lt.mpr h2]

/-- An `UpdateBalance` that would go negative fails with no mutation. -/
theorem updateBalance_insufficient (st : WalletStore) (u : String) (b d : Int)
    (h : st.wallets u = some b) (h2 : b + d < 0) :
    UpdateBalance st u d none = (st, .error .insufficientFunds) := by
  simp [UpdateBalance, h, h2]

/-- The state after any `UpdateBalance` call: either unchanged (any error,
any injected fault) or a committed write of `b + d` with `0 ≤ b + d`. -/
theorem updateBalance_fst (st : WalletStore) (u : String) (d : Int)
    (f : Option DbFault) :
    (UpdateBalance st u d f).1 = st ∨
    ∃ b, st.wallets u = some b ∧ 0 ≤ b + d ∧
      (UpdateBalance st u d f).1 = st.set u (b + d) := by
  simp only [UpdateBalance]
  split
  · exact Or.inl rfl
  · split
    · exact Or.inl rfl
    · rename_i b h2
      by_cases h3 : b + d < 0
      · simp only [if_pos h3]; exact Or.inl (by simp)
      · simp only [if_neg h3]
        split
        · exact Or.inl rfl
        · split
          · exact Or.inl rfl
          · split
            · exact Or.inl rfl
            · exact Or.inr ⟨b, h2, not_lt.mp h3, rfl⟩

theorem updateBalance_preserves_nonneg (st : WalletStore) (u : String) (d : Int)
    (f : Option DbFault) (h : WalletNonNeg st) :
    WalletNonNeg (UpdateBalance st u d f).1 := by
  rcases updateBalance_fst st u d f with h1 | ⟨b, _, hbd, h1⟩
  · rw [h1]; exact h
  · rw [h1]; exact set_preserves_nonneg _ _ _ h hbd

theorem applyAdjusts_nonneg (ops : List (String × Int × Option DbFault))
    (st0 : WalletStore) (h : WalletNonNeg st0) :
    WalletNonNeg (applyAdjusts st0 ops) := by
  induction ops generalizing st0 with
  | nil => exact h
  | cons op rest ih =>
    obtain ⟨u, d, f⟩ := op
    simp only [applyAdjusts]
    exact ih _ (updateBalance_preserves_nonneg st0 u d f h)

/-! ## C1 -/

/-- C1: `UpdateBalance` (the spec's `adjust`) never commits a negative
balance. If `b + d < 0` it fails with `InsufficientFunds` and the store is
unchanged (for any injected fault at or after the insufficiency check; a
fault at begin/select surfaces as a db error instead, also with no
mutation). On success the committed balance is exactly `b + d ≥ 0` and no
other wallet changes. Consequently `balance ≥ 0` is an invariant of every
committed state under arbitrary sequences of `adjust` calls. -/
theorem adjust_never_commits_negative (st : WalletStore) (u : String)
    (b d : Int) (f : Option DbFault) (h : st.wallets u = some b) :
    (b + d < 0 → f ≠ some .atBegin → f ≠ some .atSelect →
      UpdateBalance st u d f = (st, .error .insufficientFunds)) ∧
    (∀ st2 n, UpdateBalance st u d f = (st2, .ok n) →
      n = b + d ∧ 0 ≤ n ∧ st2.wallets u = some n ∧
      ∀ v, v ≠ u → st2.wallets v = st.wallets v) ∧
    (∀ ops st0, WalletNonNeg st0 → WalletNonNeg (applyAdjusts st0 ops)) := by
  refine ⟨?_, ?_, fun ops st0 h0 => applyAdjusts_nonneg ops st0 h0⟩
  · intro hneg h1 h2
    have hf : ¬ (f = some DbFault.atBegin ∨ f = some DbFault.atSelect) := by
      rintro (h3 | h3)
      · exact h1 h3
      · exact h2 h3
    unfold UpdateBalance
    rw [if_neg hf]
    simp only [h]
    simp [hneg]
  · intro st2 n heq
    simp only [UpdateBalance, h] at heq
    split at heq
    · simp at heq
    · split at heq
      · simp at heq
      · split at heq
        · simp at heq
        · split at heq
          · simp at heq
          · split at heq
            · simp at heq
            · rename_i hlt _ _ _
              simp only [Prod.mk.injEq, Except.ok.injEq] at heq
              obtain ⟨hst, hn⟩ := heq
              refine ⟨hn.symm, ?_, ?_, ?_⟩
              · rw [← hn]; exact not_lt.mp hlt
              · rw [← hst, ← hn]; exact WalletStore.set_same st u (b + d)
              · intro v hv
                rw [← hst]
                exact WalletStore.set_other st u v (b + d) hv

/-- Concrete store used by witnesses: one wallet, `alice`, balance 100. -/
def c1Store : WalletStore := ⟨fun u => if u = "alice" then some 100 else none⟩

theorem adjust_never_commits_negative_witness :
    UpdateBalance c1Store "alice" (-150) none = (c1Store, .error .insufficientFunds) :=
  (adjust_never_commits_negative c1Store "alice" 100 (-150) none (by decide)).1
    (by decide) (by decide) (by decide)

/-! ## C2 -/

/-- C2: round correctness of `PlayRound` for valid bet types and positive
amounts: sum 7 loses regardless of bet type; sum below 7 wins the bet amount
iff the bet is `lt7`; sum above 7 wins the bet amount iff the bet is `gt7`;
every non-winning round loses with winnings 0. Determinism given the two die
values holds by construction: `PlayRound` is a function of exactly the bet
type, the amount and the two dice. -/
theorem play_round_correct (betType : String) (betAmount : Int) (die1 die2 : Nat)
    (hbt : betType = BetTypeLt7 ∨ betType = BetTypeGt7) (hpos : 0 < betAmount) :
    ∃ r, PlayRound betType betAmount die1 die2 = .ok r ∧
      r.die1 = die1 ∧ r.die2 = die2 ∧ r.sum = die1 + die2 ∧
      (die1 + die2 = 7 → r.outcome = OutcomeLose ∧ r.winnings = 0) ∧
      (die1 + die2 < 7 →
        (betType = BetTypeLt7 → r.outcome = OutcomeWin ∧ r.winnings = betAmount) ∧
        (betType ≠ BetTypeLt7 → r.outcome = OutcomeLose ∧ r.winnings = 0)) ∧
      (7 < die1 + die2 →
        (betType = BetTypeGt7 → r.outcome = OutcomeWin ∧ r.winnings = betAmount) ∧
        (betType ≠ BetTypeGt7 → r.outcome = OutcomeLose ∧ r.winnings = 0)) ∧
      ((r.outcome = OutcomeWin ∧ r.winnings = betAmount) ∨
       (r.outcome = OutcomeLose ∧ r.winnings = 0)) := by
  have hlg : BetTypeLt7 ≠ BetTypeGt7 := by decide
  have hgl : BetTypeGt7 ≠ BetTypeLt7 := by decide
  rcases hbt with rfl | rfl <;> rcases lt_trichotomy (die1 + die2) 7 with h7 | h7 | h7
  · refine ⟨⟨die1, die2, die1 + die2, OutcomeWin, betAmount⟩, ?_, rfl, rfl, rfl,
      fun h => absurd h (Nat.ne_of_lt h7),
      fun _ => ⟨fun _ => ⟨rfl, rfl⟩, fun hne => absurd rfl hne⟩,
      fun h => absurd h7 (by omega), Or.inl ⟨rfl, rfl⟩⟩
    simp [PlayRound, Nat.ne_of_lt h7, h7, BetTypeLt7, BetTypeGt7]
  · refine ⟨⟨die1, die2, die1 + die2, OutcomeLose, 0⟩, ?_, rfl, rfl, rfl,
      fun _ => ⟨rfl, rfl⟩, fun h => absurd h7 (by omega), fun h => absurd h7 (by omega),
      Or.inr ⟨rfl, rfl⟩⟩
    simp [PlayRound, h7, BetTypeLt7, BetTypeGt7]
  · refine ⟨⟨die1, die2, die1 + die2, OutcomeLose, 0⟩, ?_, rfl, rfl, rfl,
      fun h => absurd h (by omega), fun h => absurd h7 (by omega),
      fun _ => ⟨fun h => absurd h hlg, fun _ => ⟨rfl, rfl⟩⟩, Or.inr ⟨rfl, rfl⟩⟩
    have h1 : die1 + die2 ≠ 7 := by omega
    have h2 : ¬ die1 + die2 < 7 := by omega
    simp [PlayRound, h1, h2, BetTypeLt7, BetTypeGt7]
  · refine ⟨⟨die1, die2, die1 + die2, OutcomeLose, 0⟩, ?_, rfl, rfl, rfl,
      fun h => absurd h (Nat.ne_of_lt h7),
      fun _ => ⟨fun h => absurd h hgl, fun _ => ⟨rfl, rfl⟩⟩,
      fun h => absurd h7 (by omega), Or.inr ⟨rfl, rfl⟩⟩
    simp [PlayRound, Nat.ne_of_lt h7, h7, BetTypeLt7, BetTypeGt7]
  · refine ⟨⟨die1, die2, die1 + die2, OutcomeLose, 0⟩, ?_, rfl, rfl, rfl,
      fun _ => ⟨rfl, rfl⟩, fun h => absurd h7 (by omega), fun h => absurd h7 (by omega),
      Or.inr ⟨rfl, rfl⟩⟩
    simp [PlayRound, h7, BetTypeLt7, BetTypeGt7]
  · refine ⟨⟨die1, die2, die1 + die2, OutcomeWin, betAmount⟩, ?_, rfl, rfl, rfl,
      fun h => absurd h (by omega), fun h => absurd h7 (by omega),
      fun _ => ⟨fun _ => ⟨rfl, rfl⟩, fun hne => absurd rfl hne⟩, Or.inl ⟨rfl, rfl⟩⟩
    have h1 : die1 + die2 ≠ 7 := by omega
    have h2 : ¬ die1 + die2 < 7 := by omega
    simp [PlayRound, h1, h2, BetTypeLt7, BetTypeGt7]

theorem play_round_correct_witness :
    ∃ r, PlayRound BetTypeLt7 50 2 2 = .ok r ∧
      r.die1 = 2 ∧ r.die2 = 2 ∧ r.sum = 4 ∧
      (2 + 2 = 7 → r.outcome = OutcomeLose ∧ r.winnings = 0) ∧
      (2 + 2 < 7 →
        (BetTypeLt7 = BetTypeLt7 → r.outcome = OutcomeWin ∧ r.winnings = 50) ∧
        (BetTypeLt7 ≠ BetTypeLt7 → r.outcome = OutcomeLose ∧ r.winnings = 0)) ∧
      (7 < 2 + 2 →
        (BetTypeLt7 = BetTypeGt7 → r.outcome = OutcomeWin ∧ r.winnings = 50) ∧
        (BetTypeLt7 ≠ BetTypeGt7 → r.outcome = OutcomeLose ∧ r.winnings = 0)) ∧
      ((r.outcome = OutcomeWin ∧ r.winnings = 50) ∨
       (r.outcome = OutcomeLose ∧ r.winnings = 0)) :=
  play_round_correct BetTypeLt7 50 2 2 (Or.inl rfl) (by decide)

/-! ## Shared concrete fixtures for witnesses -/

/-- Empty system: no wallets, no locks held. -/
def emptyState : SysState := ⟨⟨fun _ => none⟩, ⟨fun _ => false⟩⟩

/-- System with one wallet `A` at balance 500 and no locks held. -/
def state500 : SysState := ⟨⟨fun u => if u = "A" then some 500 else none⟩, ⟨fun _ => false⟩⟩

/-- System with one wallet `A` at balance 500 whose active-play lock is held. -/
def state500Locked : SysState :=
  ⟨⟨fun u => if u = "A" then some 500 else none⟩, ⟨fun k => k = "active_play:A"⟩⟩

/-! ## C5 -/

/-- C5: a `play` whose payload fails validation is rejected with exactly the
matching typed error — `INVALID_BET` for a non-positive amount,
`BET_TOO_HIGH` for an amount above the configured maximum,
`INVALID_BET_TYPE` for a bet type outside lt7/gt7 — and the run consists of
that single error send: no lock operation, no wallet operation, and the
state is returned untouched. -/
theorem invalid_play_rejected_without_side_effects (maxBetAmount : Int)
    (st : SysState) (clientID : String) (p : PlayPayload) (o : Oracle)
    (hcid : clientID ≠ "") (hp : p.clientID = clientID) :
    (p.betAmount ≤ 0 →
      handlePlay maxBetAmount st (some p) clientID o =
        (st, [.send (.errMsg ErrCodeInvalidBet)])) ∧
    (0 < p.betAmount → maxBetAmount < p.betAmount →
      handlePlay maxBetAmount st (some p) clientID o =
        (st, [.send (.errMsg ErrCodeBetTooHigh)])) ∧
    (0 < p.betAmount → p.betAmount ≤ maxBetAmount →
      p.betType ≠ BetTypeLt7 → p.betType ≠ BetTypeGt7 →
      handlePlay maxBetAmount st (some p) clientID o =
        (st, [.send (.errMsg ErrCodeInvalidBetType)])) := by
  refine ⟨?_, ?_, ?_⟩
  · intro h1
    simp [handlePlay, validatePlayPayload, validationErrorToCode, hcid, hp, h1]
  · intro h1 h2
    simp [handlePlay, validatePlayPayload, validationErrorToCode, hcid, hp,
      not_le.mpr h1, h2]
  · intro h1 h2 h3 h4
    simp [handlePlay, validatePlayPayload, validationErrorToCode, hcid, hp,
      not_le.mpr h1, not_lt.mpr h2, h3, h4]

theorem invalid_play_rejected_witness :
    handlePlay 250 state500 (some ⟨"A", -5, BetTypeLt7⟩) "A" (noFaultOracle 1 3) =
      (state500, [.send (.errMsg ErrCodeInvalidBet)]) :=
  (invalid_play_rejected_without_side_effects 250 state500 "A" ⟨"A", -5, BetTypeLt7⟩
    (noFaultOracle 1 3) (by decide) rfl).1 (by decide)

/-! ## C6 -/

/-- C6: a valid `play` whose lock acquisition finds the key already held
(`SetNX` returns false) is answered with `ACTIVE_PLAY_EXISTS` and aborts:
the whole run is the failed acquisition plus that one error send — no
wallet operation of any kind, no round resolution, and the state (balances
and locks) is returned untouched. -/
theorem lock_denied_no_mutation (maxBetAmount : Int) (st : SysState)
    (clientID : String) (p : PlayPayload) (o : Oracle)
    (hcid : clientID ≠ "") (hp : p.clientID = clientID)
    (hv : validatePlayPayload maxBetAmount p = none)
    (hheld : st.locks.held (RedisKeyPrefixActivePlay ++ clientID) = true)
    (hnoerr : o.lockErr = false) :
    handlePlay maxBetAmount st (some p) clientID o =
      (st, [.acquireLock (RedisKeyPrefixActivePlay ++ clientID) (some false),
            .send (.errMsg ErrCodeActivePlayExists)]) := by
  simp [handlePlay, acquireRedisLock, hcid, hp, hv, hheld, hnoerr]

theorem lock_denied_no_mutation_witness :
    handlePlay 250 state500Locked (some ⟨"A", 50, BetTypeLt7⟩) "A" (noFaultOracle 1 3) =
      (state500Locked, [.acquireLock (RedisKeyPrefixActivePlay ++ "A") (some false),
                        .send (.errMsg ErrCodeActivePlayExists)]) :=
  lock_denied_no_mutation 250 state500Locked "A" ⟨"A", 50, BetTypeLt7⟩
    (noFaultOracle 1 3) (by decide) rfl (by decide) (by decide) rfl

/-! ## C4 -/

/-- The lock-held body never performs a lock acquisition: the only
`SetNX` in `handlePlay` happens before the deferred release is installed. -/
theorem playLocked_no_acquire (st : SysState) (c : String) (p : PlayPayload)
    (o : Oracle) (k : String) (r : Option Bool) :
    Ev.acquireLock k r ∉ (playLocked st c p o).2 := by
  simp only [playLocked]
  repeat' split
  all_goals simp

/-- The lock-held body never touches the lock store. -/
theorem playLocked_locks (st : SysState) (c : String) (p : PlayPayload)
    (o : Oracle) : (playLocked st c p o).1.locks = st.locks := by
  simp only [playLocked]
  repeat' split
  all_goals rfl

/-- C4: whenever a `handlePlay` run acquired the exclusion lock (its trace
contains a successful acquisition), the deferred release is invoked on that
same key on every exit path — the trace always contains the release
operation, whose reported success is exactly the absence of a Redis `DEL`
failure — and whenever that release succeeds, the lock key is no longer
held in the final state. -/
theorem lock_released_on_every_path (maxBetAmount : Int) (st : SysState)
    (pj : Option PlayPayload) (clientID : String) (o : Oracle) (key : String)
    (hacq : Ev.acquireLock key (some true) ∈ (handlePlay maxBetAmount st pj clientID o).2) :
    Ev.releaseLock key (!o.releaseFault) ∈ (handlePlay maxBetAmount st pj clientID o).2 ∧
    (o.releaseFault = false →
      (handlePlay maxBetAmount st pj clientID o).1.locks.held key = false) := by
  rcases pj with _ | p
  · simp [handlePlay] at hacq
  · by_cases hmis : clientID = "" ∨ p.clientID ≠ clientID
    · simp [handlePlay, hmis] at hacq
    · cases hv : validatePlayPayload maxBetAmount p with
      | some e =>
        simp [handlePlay, hmis, hv] at hacq
      | none =>
        by_cases hl : o.lockErr
        · simp [handlePlay, hmis, hv, acquireRedisLock, hl] at hacq
        · by_cases hh : st.locks.held (RedisKeyPrefixActivePlay ++ clientID)
          · simp [handlePlay, hmis, hv, acquireRedisLock, hl, hh] at hacq
          · cases hrf : o.releaseFault
            · have hkey : key = RedisKeyPrefixActivePlay ++ clientID := by
                simpa [handlePlay, hmis, hv, acquireRedisLock, hl, hh,
                  releaseRedisLock, hrf, playLocked_no_acquire] using hacq
              subst hkey
              refine ⟨?_, fun _ => ?_⟩
              · simp [handlePlay, hmis, hv, acquireRedisLock, hl, hh,
                  releaseRedisLock, hrf]
              · simp [handlePlay, hmis, hv, acquireRedisLock, hl, hh,
                  releaseRedisLock, hrf, LockStore.del]
            · have hkey : key = RedisKeyPrefixActivePlay ++ clientID := by
                simpa [handlePlay, hmis, hv, acquireRedisLock, hl, hh,
                  releaseRedisLock, hrf, playLocked_no_acquire] using hacq
              subst hkey
              refine ⟨?_, fun hcontra => by simp [hrf] at hcontra⟩
              simp [handlePlay, hmis, hv, acquireRedisLock, hl, hh,
                releaseRedisLock, hrf]

theorem lock_released_witness :
    Ev.releaseLock "active_play:A" (!(noFaultOracle 1 3).releaseFault) ∈
        (handlePlay 250 state500 (some ⟨"A", 50, BetTypeLt7⟩) "A" (noFaultOracle 1 3)).2 ∧
      ((noFaultOracle 1 3).releaseFault = false →
        (handlePlay 250 state500 (some ⟨"A", 50, BetTypeLt7⟩) "A"
            (noFaultOracle 1 3)).1.locks.held "active_play:A" = false) :=
  lock_released_on_every_path 250 state500 (some ⟨"A", 50, BetTypeLt7⟩) "A"
    (noFaultOracle 1 3) "active_play:A" (by decide)

/-! ## C3 -/

theorem playRound_win_lt7 (amt : Int) (d1 d2 : Nat) (h : d1 + d2 < 7) :
    PlayRound BetTypeLt7 amt d1 d2 = .ok ⟨d1, d2, d1 + d2, OutcomeWin, amt⟩ := by
  have h1 : d1 + d2 ≠ 7 := by omega
  simp [PlayRound, h1, h, BetTypeLt7, BetTypeGt7]

theorem playRound_win_gt7 (amt : Int) (d1 d2 : Nat) (h : 7 < d1 + d2) :
    PlayRound BetTypeGt7 amt d1 d2 = .ok ⟨d1, d2, d1 + d2, OutcomeWin, amt⟩ := by
  have h1 : d1 + d2 ≠ 7 := by omega
  have h2 : ¬ d1 + d2 < 7 := by omega
  simp [PlayRound, h1, h2, BetTypeLt7, BetTypeGt7]

theorem playRound_lose (betType : String) (amt : Int) (d1 d2 : Nat)
    (hbt : betType = BetTypeLt7 ∨ betType = BetTypeGt7)
    (hlose : ¬ ((d1 + d2 < 7 ∧ betType = BetTypeLt7) ∨
                (7 < d1 + d2 ∧ betType = BetTypeGt7))) :
    PlayRound betType amt d1 d2 = .ok ⟨d1, d2, d1 + d2, OutcomeLose, 0⟩ := by
  push_neg at hlose
  obtain ⟨hl1, hl2⟩ := hlose
  rcases hbt with rfl | rfl
  · have h2 : ¬ d1 + d2 < 7 := fun h => hl1 h rfl
    by_cases h7 : d1 + d2 = 7
    · simp [PlayRound, h7, BetTypeLt7, BetTypeGt7]
    · simp [PlayRound, h7, h2, BetTypeLt7, BetTypeGt7]
  · have h2 : ¬ 7 < d1 + d2 := fun h => hl2 h rfl
    by_cases h7 : d1 + d2 = 7
    · simp [PlayRound, h7, BetTypeLt7, BetTypeGt7]
    · have h3 : d1 + d2 < 7 := by omega
      simp [PlayRound, h7, h3, BetTypeLt7, BetTypeGt7]

/-- C3: conservation. For a fault-free run of a valid wager `A` against a
committed balance `B` with `A ≤ B`: a won round commits `B + A` (the debit
of `A` followed by a credit of `A + A`), and a lost round commits `B - A`
(debit only, no credit). -/
theorem wager_conservation (maxBetAmount : Int) (st : SysState)
    (clientID betType : String) (A B : Int) (d1 d2 : Nat)
    (hcid : clientID ≠ "")
    (hb : st.wallets.wallets clientID = some B)
    (hfree : st.locks.held (RedisKeyPrefixActivePlay ++ clientID) = false)
    (hA : 0 < A) (hAB : A ≤ B) (hmax : A ≤ maxBetAmount)
    (hbt : betType = BetTypeLt7 ∨ betType = BetTypeGt7) :
    (((d1 + d2 < 7 ∧ betType = BetTypeLt7) ∨ (7 < d1 + d2 ∧ betType = BetTypeGt7)) →
      (handlePlay maxBetAmount st (some ⟨clientID, A, betType⟩) clientID
          (noFaultOracle d1 d2)).1.wallets.wallets clientID = some (B + A)) ∧
    (¬ ((d1 + d2 < 7 ∧ betType = BetTypeLt7) ∨ (7 < d1 + d2 ∧ betType = BetTypeGt7)) →
      (handlePlay maxBetAmount st (some ⟨clientID, A, betType⟩) clientID
          (noFaultOracle d1 d2)).1.wallets.wallets clientID = some (B - A)) := by
  have hv : validatePlayPayload maxBetAmount ⟨clientID, A, betType⟩ = none := by
    rcases hbt with rfl | rfl <;>
      simp [validatePlayPayload, not_le.mpr hA, not_lt.mpr hmax, BetTypeLt7, BetTypeGt7]
  have hdeb := updateBalance_ok st.wallets clientID B (-A) hb (by omega)
  have hsetB : (st.wallets.set clientID (B + -A)).wallets clientID = some (B + -A) :=
    WalletStore.set_same _ _ _
  constructor
  · intro hwin
    have hpr : PlayRound betType A d1 d2 = .ok ⟨d1, d2, d1 + d2, OutcomeWin, A⟩ := by
      rcases hwin with ⟨hs, hbt2⟩ | ⟨hs, hbt2⟩
      · rw [hbt2]; exact playRound_win_lt7 A d1 d2 hs
      · rw [hbt2]; exact playRound_win_gt7 A d1 d2 hs
    have hcred := updateBalance_ok (st.wallets.set clientID (B + -A)) clientID
      (B + -A) (A + A) hsetB (by omega)
    have hfin : (0:Int) ≤ B + -A + (A + A) := by omega
    simp [handlePlay, playLocked, noFaultOracle, acquireRedisLock, hfree,
      EnsureWalletExists, hb, hv, hcid, hdeb, hpr, hcred, releaseRedisLock, hA,
      hfin, WalletStore.set_same]
    omega
  · intro hlose
    have hpr := playRound_lose betType A d1 d2 hbt hlose
    have hfin : (0:Int) ≤ B + -A := by omega
    simp [handlePlay, playLocked, noFaultOracle, acquireRedisLock, hfree,
      EnsureWalletExists, hb, hv, hcid, hdeb, hpr, releaseRedisLock,
      GetBalance, hsetB, hfin, WalletStore.set_same]
    omega

theorem wager_conservation_witness :
    ((1 + 3 < 7 ∧ BetTypeLt7 = BetTypeLt7) ∨ (7 < 1 + 3 ∧ BetTypeLt7 = BetTypeGt7)) ∧
    (handlePlay 250 state500 (some ⟨"A", 50, BetTypeLt7⟩) "A"
        (noFaultOracle 1 3)).1.wallets.wallets "A" = some (500 + 50) := by
  have h := wager_conservation 250 state500 "A" BetTypeLt7 50 500 1 3
    (by decide) (by decide) rfl (by decide) (by decide) (by decide) (Or.inl rfl)
  exact ⟨Or.inl ⟨by decide, rfl⟩, h.1 (Or.inl ⟨by decide, rfl⟩)⟩

/-! ## C8 -/

/-- `occursBefore a b tr` is true iff some occurrence of `a` strictly
precedes some occurrence of `b` in the trace `tr`. -/
def occursBefore (a b : Ev) : List Ev → Bool
  | [] => false
  | e :: rest => if e = a then rest.contains b else occursBefore a b rest

/-- Oracle of the compensation scenario: everything succeeds except round
resolution. -/
def gameFaultOracle : Oracle :=
  ⟨false, false, none, true, 2, 3, none, none, false, false⟩

/-- C8 counterexample: with a committed balance of 500, a wager of 50 whose
debit succeeds and whose round resolution fails, the trace shows the
internal-error report strictly BEFORE the compensating credit of the debited
amount — the claim's ordering (credit back before reporting the error) is
false on this input. -/
theorem compensation_order_counterexample :
    (handlePlay 250 state500 (some ⟨"A", 50, BetTypeLt7⟩) "A" gameFaultOracle).2 =
      [.acquireLock "active_play:A" (some true), .ensureWallet "A", .adjust "A" (-50),
       .resolveRound, .send (.errMsg ErrCodeInternalError), .adjust "A" 50,
       .releaseLock "active_play:A" true] ∧
    occursBefore (.adjust "A" 50) (.send (.errMsg ErrCodeInternalError))
      (handlePlay 250 state500 (some ⟨"A", 50, BetTypeLt7⟩) "A" gameFaultOracle).2 = false ∧
    occursBefore (.send (.errMsg ErrCodeInternalError)) (.adjust "A" 50)
      (handlePlay 250 state500 (some ⟨"A", 50, BetTypeLt7⟩) "A" gameFaultOracle).2 = true :=
  ⟨by decide, by decide, by decide⟩

/-- C8 amended: when the debit succeeded and round resolution fails, the
engine first reports the internal error, then credits back exactly the
debited bet amount, and then releases the exclusion lock; with a fault-free
refund the committed balance is restored to its pre-wager value and the
lock is no longer held. -/
theorem failed_resolution_compensation (maxBetAmount : Int) (st : SysState)
    (clientID betType : String) (A B : Int) (o : Oracle)
    (hcid : clientID ≠ "")
    (hb : st.wallets.wallets clientID = some B)
    (hfree : st.locks.held (RedisKeyPrefixActivePlay ++ clientID) = false)
    (hA : 0 < A) (hAB : A ≤ B) (hmax : A ≤ maxBetAmount)
    (hbt : betType = BetTypeLt7 ∨ betType = BetTypeGt7)
    (hlo : o.lockErr = false) (hens : o.ensureFault = false)
    (hdf : o.debitFault = none) (hgame : o.gameFault = true)
    (hrefund : o.refundFault = none) (hrel : o.releaseFault = false) :
    (handlePlay maxBetAmount st (some ⟨clientID, A, betType⟩) clientID o).2 =
      [.acquireLock (RedisKeyPrefixActivePlay ++ clientID) (some true),
       .ensureWallet clientID, .adjust clientID (-A), .resolveRound,
       .send (.errMsg ErrCodeInternalError), .adjust clientID A,
       .releaseLock (RedisKeyPrefixActivePlay ++ clientID) true] ∧
    (handlePlay maxBetAmount st (some ⟨clientID, A, betType⟩) clientID
        o).1.wallets.wallets clientID = some B ∧
    (handlePlay maxBetAmount st (some ⟨clientID, A, betType⟩) clientID
        o).1.locks.held (RedisKeyPrefixActivePlay ++ clientID) = false := by
  have hv : validatePlayPayload maxBetAmount ⟨clientID, A, betType⟩ = none := by
    rcases hbt with rfl | rfl <;>
      simp [validatePlayPayload, not_le.mpr hA, not_lt.mpr hmax, BetTypeLt7, BetTypeGt7]
  have hdeb := updateBalance_ok st.wallets clientID B (-A) hb (by omega)
  have hsetB : (st.wallets.set clientID (B + -A)).wallets clientID = some (B + -A) :=
    WalletStore.set_same _ _ _
  have href := updateBalance_ok (st.wallets.set clientID (B + -A)) clientID
    (B + -A) A hsetB (by omega)
  have hx : B + -A + A = B := by omega
  refine ⟨?_, ?_, ?_⟩ <;>
    simp [handlePlay, playLocked, acquireRedisLock, EnsureWalletExists, hb, hv,
      hcid, hfree, hlo, hens, hdf, hgame, hrefund, hrel, hdeb, href, hx,
      releaseRedisLock, LockStore.del, WalletStore.set_same]

theorem failed_resolution_compensation_witness :
    (handlePlay 250 state500 (some ⟨"A", 50, BetTypeLt7⟩) "A" gameFaultOracle).2 =
      [.acquireLock (RedisKeyPrefixActivePlay ++ "A") (some true),
       .ensureWallet "A", .adjust "A" (-50),
       .resolveRound, .send (.errMsg ErrCodeInternalError), .adjust "A" 50,
       .releaseLock (RedisKeyPrefixActivePlay ++ "A") true] ∧
    (handlePlay 250 state500 (some ⟨"A", 50, BetTypeLt7⟩) "A"
        gameFaultOracle).1.wallets.wallets "A" = some 500 ∧
    (handlePlay 250 state500 (some ⟨"A", 50, BetTypeLt7⟩) "A"
        gameFaultOracle).1.locks.held (RedisKeyPrefixActivePlay ++ "A") = false :=
  failed_resolution_compensation 250 state500 "A" BetTypeLt7 50 500 gameFaultOracle
    (by decide) (by decide) rfl (by decide) (by decide) (by decide) (Or.inl rfl)
    rfl rfl rfl rfl rfl rfl

/-! ## C10 -/

/-- Any injected fault makes `UpdateBalance` fail with some non-funds error
and no mutation, provided the balance check itself would pass. -/
theorem updateBalance_fault_err (st : WalletStore) (u : String) (b d : Int)
    (f : DbFault) (h : st.wallets u = some b) (h2 : 0 ≤ b + d) :
    ∃ e, UpdateBalance st u d (some f) = (st, .error e) := by
  cases f
  case atBegin => exact ⟨.dbError, by simp [UpdateBalance]⟩
  case atSelect => exact ⟨.dbError, by simp [UpdateBalance]⟩
  case atUpdate => exact ⟨.dbError, by simp [UpdateBalance, h, not_lt.mpr h2]⟩
  case atRows => exact ⟨.updateFailed, by simp [UpdateBalance, h, not_lt.mpr h2]⟩
  case atCommit => exact ⟨.dbError, by simp [UpdateBalance, h, not_lt.mpr h2]⟩

/-- C10: in every run of a valid wager whose debit and round resolution both
succeed, the `play_result` message is emitted regardless of later credit or
balance-read failures, and a `balance_update` follows exactly when the
computed final balance is non-negative: after a fault-free credit it carries
`B + A`; after a winning round whose credit failed it carries the
best-effort re-read of the balance (`B - A`, or the Go zero value `0` when
that re-read itself fails), never the credited amount; after a loss it
carries `B - A` when the read succeeds, and no `balance_update` at all is
emitted when the read after a loss fails. -/
theorem play_result_always_emitted (maxBetAmount : Int) (st : SysState)
    (clientID betType : String) (A B : Int) (o : Oracle)
    (hcid : clientID ≠ "")
    (hb : st.wallets.wallets clientID = some B)
    (hfree : st.locks.held (RedisKeyPrefixActivePlay ++ clientID) = false)
    (hA : 0 < A) (hAB : A ≤ B) (hmax : A ≤ maxBetAmount)
    (hbt : betType = BetTypeLt7 ∨ betType = BetTypeGt7)
    (hlo : o.lockErr = false) (hens : o.ensureFault = false)
    (hdf : o.debitFault = none) (hgame : o.gameFault = false) :
    ∃ r, PlayRound betType A o.die1 o.die2 = .ok r ∧
      Ev.send (.playResult clientID r.die1 r.die2 r.outcome A r.winnings) ∈
        (handlePlay maxBetAmount st (some ⟨clientID, A, betType⟩) clientID o).2 ∧
      (0 < r.winnings → o.creditFault = none →
        Ev.send (.balanceUpdate clientID (B + A)) ∈
          (handlePlay maxBetAmount st (some ⟨clientID, A, betType⟩) clientID o).2) ∧
      (0 < r.winnings → ∀ f, o.creditFault = some f →
        Ev.send (.balanceUpdate clientID (if o.readFault then 0 else B - A)) ∈
          (handlePlay maxBetAmount st (some ⟨clientID, A, betType⟩) clientID o).2) ∧
      (r.winnings = 0 → o.readFault = false →
        Ev.send (.balanceUpdate clientID (B - A)) ∈
          (handlePlay maxBetAmount st (some ⟨clientID, A, betType⟩) clientID o).2) ∧
      (r.winnings = 0 → o.readFault = true →
        ∀ bal, Ev.send (.balanceUpdate clientID bal) ∉
          (handlePlay maxBetAmount st (some ⟨clientID, A, betType⟩) clientID o).2) := by
  have hv : validatePlayPayload maxBetAmount ⟨clientID, A, betType⟩ = none := by
    rcases hbt with rfl | rfl <;>
      simp [validatePlayPayload, not_le.mpr hA, not_lt.mpr hmax, BetTypeLt7, BetTypeGt7]
  have hsub : B + -A = B - A := by omega
  have hdeb := updateBalance_ok st.wallets clientID B (-A) hb (by omega)
  rw [hsub] at hdeb
  have hsetB : (st.wallets.set clientID (B - A)).wallets clientID = some (B - A) :=
    WalletStore.set_same _ _ _
  have hfin4 : (0:Int) ≤ B - A := by omega
  have hfin3 : (0:Int) ≤ B + A := by omega
  by_cases hwin : (o.die1 + o.die2 < 7 ∧ betType = BetTypeLt7) ∨
      (7 < o.die1 + o.die2 ∧ betType = BetTypeGt7)
  · have hpr : PlayRound betType A o.die1 o.die2 =
        .ok ⟨o.die1, o.die2, o.die1 + o.die2, OutcomeWin, A⟩ := by
      rcases hwin with ⟨hs, hbt2⟩ | ⟨hs, hbt2⟩
      · rw [hbt2]; exact playRound_win_lt7 A o.die1 o.die2 hs
      · rw [hbt2]; exact playRound_win_gt7 A o.die1 o.die2 hs
    refine ⟨_, hpr, ?_, fun _ hcf => ?_, fun _ f hcf => ?_,
        fun habs _ => absurd habs (by simp; omega),
        fun habs _ => absurd habs (by simp; omega)⟩
    · cases hcf : o.creditFault with
      | none =>
        have hcred := updateBalance_ok (st.wallets.set clientID (B - A)) clientID
          (B - A) (A + A) hsetB (by omega)
        have hfin : (0:Int) ≤ B - A + (A + A) := by omega
        cases hrl : o.releaseFault <;>
          simp [handlePlay, playLocked, acquireRedisLock, EnsureWalletExists, hb,
            hv, hcid, hfree, hlo, hens, hdf, hgame, hdeb, hpr, hcred, hfin, hrl,
            hcf, hfin3, releaseRedisLock, hA]
      | some f =>
        obtain ⟨e, he⟩ := updateBalance_fault_err (st.wallets.set clientID (B - A))
          clientID (B - A) (A + A) f hsetB (by omega)
        cases hrf : o.readFault <;> cases hrl : o.releaseFault <;>
          simp [handlePlay, playLocked, acquireRedisLock, EnsureWalletExists, hb,
            hv, hcid, hfree, hlo, hens, hdf, hgame, hdeb, hpr, he, hrf, hrl, hcf,
            GetBalance, goInt, hsetB, hfin4, releaseRedisLock, hA]
    · have hcred := updateBalance_ok (st.wallets.set clientID (B - A)) clientID
        (B - A) (A + A) hsetB (by omega)
      have hfin : (0:Int) ≤ B - A + (A + A) := by omega
      have hx : B - A + (A + A) = B + A := by omega
      cases hrl : o.releaseFault <;>
        simp [handlePlay, playLocked, acquireRedisLock, EnsureWalletExists, hb,
          hv, hcid, hfree, hlo, hens, hdf, hgame, hdeb, hpr, hcred, hfin, hrl,
          hcf, hx, hfin3, releaseRedisLock, hA]
    · obtain ⟨e, he⟩ := updateBalance_fault_err (st.wallets.set clientID (B - A))
        clientID (B - A) (A + A) f hsetB (by omega)
      cases hrf : o.readFault <;> cases hrl : o.releaseFault <;>
        simp [handlePlay, playLocked, acquireRedisLock, EnsureWalletExists, hb,
          hv, hcid, hfree, hlo, hens, hdf, hgame, hdeb, hpr, he, hrf, hrl, hcf,
          GetBalance, goInt, hsetB, hfin4, releaseRedisLock, hA]
  · have hpr := playRound_lose betType A o.die1 o.die2 hbt hwin
    refine ⟨_, hpr, ?_, fun habs => absurd habs (by simp),
        fun habs => absurd habs (by simp), fun _ hrf => ?_, fun _ hrf bal => ?_⟩
    · cases hrf : o.readFault <;> cases hrl : o.releaseFault <;>
        simp [handlePlay, playLocked, acquireRedisLock, EnsureWalletExists, hb,
          hv, hcid, hfree, hlo, hens, hdf, hgame, hdeb, hpr, hrf, hrl,
          GetBalance, hsetB, hfin4, releaseRedisLock]
    · cases hrl : o.releaseFault <;>
        simp [handlePlay, playLocked, acquireRedisLock, EnsureWalletExists, hb,
          hv, hcid, hfree, hlo, hens, hdf, hgame, hdeb, hpr, hrf, hrl,
          GetBalance, hsetB, hfin4, releaseRedisLock]
    · cases hrl : o.releaseFault <;>
        simp [handlePlay, playLocked, acquireRedisLock, EnsureWalletExists, hb,
          hv, hcid, hfree, hlo, hens, hdf, hgame, hdeb, hpr, hrf, hrl,
          GetBalance, hsetB, releaseRedisLock]

theorem play_result_always_emitted_witness :
    ∃ r, PlayRound BetTypeLt7 50 (noFaultOracle 1 3).die1 (noFaultOracle 1 3).die2 = .ok r ∧
      Ev.send (.playResult "A" r.die1 r.die2 r.outcome 50 r.winnings) ∈
        (handlePlay 250 state500 (some ⟨"A", 50, BetTypeLt7⟩) "A" (noFaultOracle 1 3)).2 ∧
      (0 < r.winnings → (noFaultOracle 1 3).creditFault = none →
        Ev.send (.balanceUpdate "A" (500 + 50)) ∈
          (handlePlay 250 state500 (some ⟨"A", 50, BetTypeLt7⟩) "A" (noFaultOracle 1 3)).2) ∧
      (0 < r.winnings → ∀ f, (noFaultOracle 1 3).creditFault = some f →
        Ev.send (.balanceUpdate "A" (if (noFaultOracle 1 3).readFault then 0 else 500 - 50)) ∈
          (handlePlay 250 state500 (some ⟨"A", 50, BetTypeLt7⟩) "A" (noFaultOracle 1 3)).2) ∧
      (r.winnings = 0 → (noFaultOracle 1 3).readFault = false →
        Ev.send (.balanceUpdate "A" (500 - 50)) ∈
          (handlePlay 250 state500 (some ⟨"A", 50, BetTypeLt7⟩) "A" (noFaultOracle 1 3)).2) ∧
      (r.winnings = 0 → (noFaultOracle 1 3).readFault = true →
        ∀ bal, Ev.send (.balanceUpdate "A" bal) ∉
          (handlePlay 250 state500 (some ⟨"A", 50, BetTypeLt7⟩) "A" (noFaultOracle 1 3)).2) :=
  play_result_always_emitted 250 state500 "A" BetTypeLt7 50 500 (noFaultOracle 1 3)
    (by decide) (by decide) rfl (by decide) (by decide) (by decide) (Or.inl rfl)
    rfl rfl rfl rfl

/-! ## C7 -/

/-- The lock-held body never sends `BAD_REQUEST`: its error sends are
`INTERNAL_ERROR` and `INSUFFICIENT_FUNDS` only. -/
theorem playLocked_no_bad_request (st : SysState) (c : String) (p : PlayPayload)
    (o : Oracle) :
    Ev.send (.errMsg ErrCodeBadRequest) ∉ (playLocked st c p o).2 := by
  simp only [playLocked]
  repeat' split
  all_goals
    simp [ErrCodeBadRequest, ErrCodeInternalError, ErrCodeInsufficientFunds]

/-- When the payload parses and the handler is invoked with exactly the
payload's (non-empty) client id — which is what `HandleClient` always does
for a non-empty declared id — `handlePlay` never sends `BAD_REQUEST`. -/
theorem handlePlay_no_bad_request (maxBetAmount : Int) (st : SysState)
    (p : PlayPayload) (o : Oracle) (hcid : p.clientID ≠ "") :
    Ev.send (.errMsg ErrCodeBadRequest) ∉
      (handlePlay maxBetAmount st (some p) p.clientID o).2 := by
  cases hv : validatePlayPayload maxBetAmount p with
  | some e =>
    cases e <;>
      simp [handlePlay, hcid, hv, validationErrorToCode, ErrCodeBadRequest,
        ErrCodeInvalidBet, ErrCodeBetTooHigh, ErrCodeInvalidBetType]
  | none =>
    by_cases hl : o.lockErr
    · simp [handlePlay, hcid, hv, acquireRedisLock, hl, ErrCodeBadRequest,
        ErrCodeInternalError]
    · by_cases hh : st.locks.held (RedisKeyPrefixActivePlay ++ p.clientID)
      · simp [handlePlay, hcid, hv, acquireRedisLock, hl, hh, ErrCodeBadRequest,
          ErrCodeActivePlayExists]
      · cases hrl : o.releaseFault
        all_goals
          simp [handlePlay, hcid, hv, acquireRedisLock, hl, hh, hrl,
            releaseRedisLock, ErrCodeBadRequest, ErrCodeFailedLockRelease]
        all_goals exact playLocked_no_bad_request _ _ _ _

/-- C7 counterexample: on a connection whose bound identity is `A`, a play
message declaring clientId `B` is NOT rejected as a bad request — no
`BAD_REQUEST` is emitted, the connection's bound identity silently becomes
`B`, and state is mutated (a wallet for `B` is created, debited and
credited), contradicting the claim at this concrete input. -/
theorem identity_mismatch_counterexample :
    Ev.send (.errMsg ErrCodeBadRequest) ∉
      (handleMessage 250 ⟨emptyState, "A"⟩ ⟨MsgTypePlay, some ⟨"B", 10, BetTypeLt7⟩⟩
        (noFaultOracle 2 3)).2.1 ∧
    (handleMessage 250 ⟨emptyState, "A"⟩ ⟨MsgTypePlay, some ⟨"B", 10, BetTypeLt7⟩⟩
        (noFaultOracle 2 3)).1.currentClientID = "B" ∧
    (handleMessage 250 ⟨emptyState, "A"⟩ ⟨MsgTypePlay, some ⟨"B", 10, BetTypeLt7⟩⟩
        (noFaultOracle 2 3)).1.sys.wallets.wallets "B" = some 510 :=
  ⟨by decide, by decide, by decide⟩

/-- C7 amended: the read loop rebinds the connection's identity from every
message whose payload declares a non-empty clientId, so a declared identity
different from the one previously bound is NOT rejected — the message is
processed under the new identity and no `BAD_REQUEST` is sent. Only a
message declaring an empty clientId while a non-empty identity is bound is
rejected as a bad request with no state mutation and the bound identity
unchanged. -/
theorem identity_mismatch_amended (maxBetAmount : Int) (cs : ClientState)
    (p : PlayPayload) (o : Oracle) :
    (p.clientID ≠ "" →
      (handleMessage maxBetAmount cs ⟨MsgTypePlay, some p⟩ o).1.currentClientID
          = p.clientID ∧
      Ev.send (.errMsg ErrCodeBadRequest) ∉
        (handleMessage maxBetAmount cs ⟨MsgTypePlay, some p⟩ o).2.1) ∧
    (p.clientID = "" → cs.currentClientID ≠ "" →
      handleMessage maxBetAmount cs ⟨MsgTypePlay, some p⟩ o =
        (⟨cs.sys, cs.currentClientID⟩, [.send (.errMsg ErrCodeBadRequest)], false)) := by
  refine ⟨fun hne => ⟨?_, ?_⟩, fun hemp hbound => ?_⟩
  · simp [handleMessage, nextClientID, extractClientID, hne]
  · have h := handlePlay_no_bad_request maxBetAmount cs.sys p o hne
    simpa [handleMessage, nextClientID, extractClientID, hne] using h
  · simp [handleMessage, nextClientID, extractClientID, handlePlay, hemp,
      hbound, Ne.symm hbound]

theorem identity_mismatch_amended_witness :
    (handleMessage 250 ⟨emptyState, "A"⟩ ⟨MsgTypePlay, some ⟨"B", 10, BetTypeLt7⟩⟩
        (noFaultOracle 2 3)).1.currentClientID = "B" ∧
    Ev.send (.errMsg ErrCodeBadRequest) ∉
      (handleMessage 250 ⟨emptyState, "A"⟩ ⟨MsgTypePlay, some ⟨"B", 10, BetTypeLt7⟩⟩
        (noFaultOracle 2 3)).2.1 :=
  (identity_mismatch_amended 250 ⟨emptyState, "A"⟩ ⟨"B", 10, BetTypeLt7⟩
    (noFaultOracle 2 3)).1 (by decide)

/-! ## C9 -/

/-- C9: `end_play` ends the session. The handler reads the current balance
best-effort and always emits `play_ended` carrying it — the sentinel `-1`
when the read fails (including when no wallet exists) — the iteration
reports closure, and the client loop processes no further input: the run on
`end_play :: rest` is literally the run of the `end_play` message alone,
whatever `rest` holds. -/
theorem end_play_final (maxBetAmount : Int) (cs : ClientState) (msg : WsMessage)
    (o : Oracle) (rest : List (WsMessage × Oracle))
    (hty : msg.type = MsgTypeEndPlay) :
    (handleMessage maxBetAmount cs msg o).2.2 = true ∧
    runClient maxBetAmount cs ((msg, o) :: rest) =
      ((handleMessage maxBetAmount cs msg o).1,
       (handleMessage maxBetAmount cs msg o).2.1) ∧
    (∀ b, GetBalance cs.sys.wallets (nextClientID cs.currentClientID msg) o.readFault
        = .ok b →
      Ev.send (.playEnded (nextClientID cs.currentClientID msg) b) ∈
        (handleMessage maxBetAmount cs msg o).2.1) ∧
    (∀ e, GetBalance cs.sys.wallets (nextClientID cs.currentClientID msg) o.readFault
        = .error e →
      Ev.send (.playEnded (nextClientID cs.currentClientID msg) (-1)) ∈
        (handleMessage maxBetAmount cs msg o).2.1) := by
  have hne1 : MsgTypeEndPlay ≠ MsgTypePlay := by decide
  have hne2 : MsgTypeEndPlay ≠ MsgTypeGetBalance := by decide
  have h1 : (handleMessage maxBetAmount cs msg o).2.2 = true := by
    simp [handleMessage, hty, hne1, hne2]
  refine ⟨h1, ?_, ?_, ?_⟩
  · simp only [runClient]
    rw [if_pos h1]
  · intro b hgb
    simp [handleMessage, handleEndPlay, hty, hne1, hne2, hgb]
  · intro e hgb
    simp [handleMessage, handleEndPlay, hty, hne1, hne2, hgb]

theorem end_play_final_witness :
    (handleMessage 250 ⟨state500, "A"⟩ ⟨MsgTypeEndPlay, some ⟨"A", 0, ""⟩⟩
        (noFaultOracle 1 1)).2.2 = true ∧
    runClient 250 ⟨state500, "A"⟩
        [(⟨MsgTypeEndPlay, some ⟨"A", 0, ""⟩⟩, noFaultOracle 1 1),
         (⟨MsgTypePlay, some ⟨"A", 50, BetTypeLt7⟩⟩, noFaultOracle 1 1)] =
      ((handleMessage 250 ⟨state500, "A"⟩ ⟨MsgTypeEndPlay, some ⟨"A", 0, ""⟩⟩
          (noFaultOracle 1 1)).1,
       (handleMessage 250 ⟨state500, "A"⟩ ⟨MsgTypeEndPlay, some ⟨"A", 0, ""⟩⟩
          (noFaultOracle 1 1)).2.1) ∧
    (∀ b, GetBalance state500.wallets
        (nextClientID "A" ⟨MsgTypeEndPlay, some ⟨"A", 0, ""⟩⟩)
        (noFaultOracle 1 1).readFault = .ok b →
      Ev.send (.playEnded (nextClientID "A" ⟨MsgTypeEndPlay, some ⟨"A", 0, ""⟩⟩) b) ∈
        (handleMessage 250 ⟨state500, "A"⟩ ⟨MsgTypeEndPlay, some ⟨"A", 0, ""⟩⟩
          (noFaultOracle 1 1)).2.1) ∧
    (∀ e, GetBalance state500.wallets
        (nextClientID "A" ⟨MsgTypeEndPlay, some ⟨"A", 0, ""⟩⟩)
        (noFaultOracle 1 1).readFault = .error e →
      Ev.send (.playEnded (nextClientID "A" ⟨MsgTypeEndPlay, some ⟨"A", 0, ""⟩⟩) (-1)) ∈
        (handleMessage 250 ⟨state500, "A"⟩ ⟨MsgTypeEndPlay, some ⟨"A", 0, ""⟩⟩
          (noFaultOracle 1 1)).2.1) :=
  end_play_final 250 ⟨state500, "A"⟩ ⟨MsgTypeEndPlay, some ⟨"A", 0, ""⟩⟩
    (noFaultOracle 1 1)
    [(⟨MsgTypePlay, some ⟨"A", 50, BetTypeLt7⟩⟩, noFaultOracle 1 1)] rfl

end DiceGame
